import Mathlib

/-
Shallow embedding of the curved-text layout engine in
src/shapes/CurvedText.ts (class CurvedText).

Modelling conventions:
- JS numbers are modelled as real numbers (the code is trigonometry-heavy);
  NaN is not modelled.
- JS strings of glyphs are modelled as lists of characters, matching the
  code's one-code-unit-per-glyph splitting via substring(i, i + 1).
- The canvas text-measurement service (context.measureText under the
  configured font) is an explicit function parameter `m : List Char → ℝ`
  (respectively `M : FontDesc → List Char → ℝ` when the font matters).
- A JS runtime TypeError (reading a property of undefined) is modelled by
  returning `none`.
- `getAttr('curveRadius')` may be absent, hence `Option ℝ`; the JS falsy
  test `curveRadius || 1000000` treats both absence and 0 as falsy.
-/

noncomputable section

/-- Result of CurvedText.getTextMetrics. -/
structure TextMetrics where
  text : List Char
  xOffsets : List ℝ
  width : ℝ

/-- One entry of the `text` array built in CurvedText.computeText. -/
structure PlacedGlyph where
  x : ℝ
  y : ℝ
  rotation : ℝ
  glyph : Char

/-- The geometry snapshot taken at the top of computeText and consumed by
updateBounds: x, y, width, height, rotation (degrees), scaleX, scaleY. -/
structure Bounds where
  x : ℝ
  y : ℝ
  width : ℝ
  height : ℝ
  rotation : ℝ
  scaleX : ℝ
  scaleY : ℝ

/-- The local `textBounds` accumulator of CurvedText.updateBounds. -/
structure TextBounds where
  minX : ℝ
  minY : ℝ
  maxX : ℝ
  maxY : ℝ

/-- The `curvePath` record stored in `_computedText`. -/
structure CurvePath where
  cx : ℝ
  cy : ℝ
  radius : ℝ
  color : String

/-- The `_computedText` attribute set at the end of computeText. -/
structure ComputedLayout where
  curvePath : CurvePath
  textMetrics : TextMetrics
  curveText : List PlacedGlyph

/-- The font configuration composed by CurvedText._getContextFont.  The
source composes these into a single CSS font string ("style variant sizepx
family"); since only the measurement service consumes that string, the
descriptor is kept structured here. -/
structure FontDesc where
  fontStyle : String
  fontVariant : String
  fontSize : ℝ
  fontFamily : String

/-- The shape attributes and geometry that CurvedText reads and writes. -/
structure ShapeState where
  x : ℝ
  y : ℝ
  width : ℝ
  height : ℝ
  rotation : ℝ
  scaleX : ℝ
  scaleY : ℝ
  text : List Char
  fontFamily : String
  fontStyle : String
  fontVariant : String
  fontSize : ℝ
  curveRadius : Option ℝ
  curveDirection : ℝ
  computedText : Option ComputedLayout

/-- normalizeFontFamily from CurvedText.ts: split on commas, trim each
family, and wrap a family containing a space but no quotes in double
quotes. -/
def normalizeFontFamily (fontFamily : String) : String :=
  String.intercalate (", ") ((fontFamily.splitOn (",")).map (fun family =>
    let f := family.trim
    if f.contains ' ' && !(f.contains '"' || f.contains '\'') then
      ("\"" ++ f ++ "\"")
    else f))

/-- CurvedText._getContextFont, as a structured font descriptor. -/
def getContextFont (s : ShapeState) : FontDesc :=
  { fontStyle := s.fontStyle
    fontVariant := s.fontVariant
    fontSize := s.fontSize
    fontFamily := normalizeFontFamily s.fontFamily }

/-- The cumulative-offset loop of getTextMetrics (indices 1 .. length-1):
given the previous accumulated offset `prev` and the previous glyph `p`,
each next glyph `c` contributes
`prev + width(p ++ c) - width(p) / 2 - width(c) / 2`. -/
def offsetsFrom (m : List Char → ℝ) : ℝ → Char → List Char → List ℝ
  | _, _, [] => []
  | prev, p, c :: rest =>
      (prev + m [p, c] - m [p] / 2 - m [c] / 2) ::
        offsetsFrom m (prev + m [p, c] - m [p] / 2 - m [c] / 2) c rest

/-- CurvedText.getTextMetrics.  The seed offset is
`measureText(text.substring(0, 1)).width / 2` (for the empty string the
code measures the empty string, so xOffsets still has one entry), and the
total width is the direct measurement of the whole text. -/
def getTextMetrics (m : List Char → ℝ) (text : List Char) : TextMetrics :=
  match text with
  | [] => { text := [], xOffsets := [m [] / 2], width := m [] }
  | c :: rest =>
      { text := c :: rest
        xOffsets := m [c] / 2 :: offsetsFrom m (m [c] / 2) c rest
        width := m (c :: rest) }

/-- The radius actually used by computeText:
`this.getAttr('curveRadius') || 1000000` (JS: absent and 0 are falsy). -/
def effectiveRadius : Option ℝ → ℝ
  | none => 1000000
  | some r => if r = 0 then 1000000 else r

/-- The body of the per-glyph loop of computeText: `rotation` (in degrees)
is `(-width / 2 + xOffsets[i]) * 360 / (Math.PI * (curveRadius * 2))`,
the center ordinate is `±curveRadius` by direction sign, the position is
`(radius·sin, cy − cy·cos)` of the angle in radians, and the stored
rotation is `curveRadius === 0 ? 0 : ±(rotation in radians)`. -/
def placeGlyph (r d width : ℝ) (xOff : ℝ) (g : Char) : PlacedGlyph :=
  { x := r * Real.sin ((-width / 2 + xOff) * 360 / (Real.pi * (r * 2)) * Real.pi / 180)
    y := (if d > 0 then r else -r) -
      (if d > 0 then r else -r) *
        Real.cos ((-width / 2 + xOff) * 360 / (Real.pi * (r * 2)) * Real.pi / 180)
    rotation :=
      if r = 0 then 0
      else if d > 0 then (-width / 2 + xOff) * 360 / (Real.pi * (r * 2)) * Real.pi / 180
      else -((-width / 2 + xOff) * 360 / (Real.pi * (r * 2)) * Real.pi / 180)
    glyph := g }

/-- The placed-glyph list built by computeText from the metrics of `text`
under measurer `m`, curveRadius attribute `cr` and curveDirection `d`. -/
def curveTextOf (m : List Char → ℝ) (text : List Char) (cr : Option ℝ) (d : ℝ) :
    List PlacedGlyph :=
  List.zipWith
    (placeGlyph (effectiveRadius cr) d (getTextMetrics m text).width)
    (getTextMetrics m text).xOffsets (getTextMetrics m text).text

/-- The bounding-box accumulation loop of updateBounds.  The initial
accumulator in the source is
`{ minX: text[0].x, minY: text[0].y, maxX: text[0].x, maxY: text[0].x }`
— note that `maxY` is seeded from the first glyph's x, exactly as in the
source. -/
def textBoundsOf (pts : List PlacedGlyph) (t0 : PlacedGlyph) : TextBounds :=
  pts.foldl (fun tb t =>
    { minX := if tb.minX > t.x then t.x else tb.minX
      minY := if tb.minY > t.y then t.y else tb.minY
      maxX := if tb.maxX < t.x then t.x else tb.maxX
      maxY := if tb.maxY < t.y then t.y else tb.maxY })
    { minX := t0.x, minY := t0.y, maxX := t0.x, maxY := t0.x }

/-- CurvedText.updateBounds.  On an empty glyph list the source reads
`text[0].x` of `undefined` and throws (modelled as `none`).  Otherwise it
computes the new width/height from the accumulated extremes plus one
fontSize, and moves the position by the transformed centering deltas. -/
def updateBounds (fontSize curveDirection : ℝ) (old : Bounds)
    (pts : List PlacedGlyph) : Option Bounds :=
  match pts with
  | [] => none
  | t0 :: _ =>
    let tb := textBoundsOf pts t0
    let newWidth := tb.maxX - tb.minX + fontSize
    let newHeight := tb.maxY - tb.minY + fontSize
    let dx := (old.width * old.scaleX - newWidth * old.scaleX) / 2
    let dy := if curveDirection < 0
      then old.height * old.scaleY - newHeight * old.scaleY else 0
    some
      { x := old.x + (dx * Real.cos (old.rotation * Real.pi / 180)
          + dy * Real.sin (old.rotation * Real.pi / 180))
        y := old.y + (dx * Real.sin (old.rotation * Real.pi / 180)
          + dy * Real.cos (old.rotation * Real.pi / 180))
        width := newWidth
        height := newHeight
        rotation := old.rotation
        scaleX := old.scaleX
        scaleY := old.scaleY }

/-- The geometry snapshot taken at the top of computeText. -/
def boundsOf (s : ShapeState) : Bounds :=
  { x := s.x, y := s.y, width := s.width, height := s.height
    rotation := s.rotation, scaleX := s.scaleX, scaleY := s.scaleY }

/-- The `_computedText` value assembled at the end of computeText. -/
def computedLayoutOf (M : FontDesc → List Char → ℝ) (s : ShapeState) :
    ComputedLayout :=
  { curvePath :=
      { cx := 0
        cy := if s.curveDirection > 0 then effectiveRadius s.curveRadius
          else -(effectiveRadius s.curveRadius)
        radius := effectiveRadius s.curveRadius
        color := "rgb(31, 163, 249)" }
    textMetrics := getTextMetrics (M (getContextFont s)) s.text
    curveText := curveTextOf (M (getContextFont s)) s.text s.curveRadius s.curveDirection }

/-- The shape state after a successful computeText run with bounds result
`b`: updateBounds wrote the new geometry, then `_computedText` was set. -/
def stepState (M : FontDesc → List Char → ℝ) (s : ShapeState) (b : Bounds) :
    ShapeState :=
  { s with x := b.x, y := b.y, width := b.width, height := b.height
           computedText := some (computedLayoutOf M s) }

/-- CurvedText.computeText.  `none` models the TypeError thrown inside
updateBounds when the placed-glyph list is empty (the throw happens before
any geometry or `_computedText` write). -/
def computeText (M : FontDesc → List Char → ℝ) (s : ShapeState) :
    Option ShapeState :=
  (updateBounds s.fontSize s.curveDirection (boundsOf s)
      (computedLayoutOf M s).curveText).map (stepState M s)

/-- CurvedText.setText: null/undefined are coerced to the empty string
before the attribute write and the recompute. -/
def setText (M : FontDesc → List Char → ℝ) (s : ShapeState)
    (t : Option (List Char)) : Option ShapeState :=
  computeText M { s with text := t.getD [] }

/-- JS falsiness of a possibly-absent string value: undefined and the
empty string are falsy. -/
def jsFalsyStr : Option String → Bool
  | none => true
  | some v => v == ""

/-- The fill-related part of a construction config, as read by
checkDefaultFill.  The three gradient/pattern fields only matter through
their JS truthiness, so they are modelled as presence flags. -/
structure FillConfig where
  fillLinearGradientColorStops : Bool
  fillRadialGradientColorStops : Bool
  fillPatternImage : Bool
  fill : Option String

/-- checkDefaultFill from CurvedText.ts: `config = config || {}`, then if
none of the gradient/pattern fields is truthy, `config.fill =
config.fill || 'black'`. -/
def checkDefaultFill (config : Option FillConfig) : FillConfig :=
  let c := config.getD
    { fillLinearGradientColorStops := false
      fillRadialGradientColorStops := false
      fillPatternImage := false
      fill := none }
  if !c.fillLinearGradientColorStops && !c.fillRadialGradientColorStops
      && !c.fillPatternImage then
    { c with fill := if jsFalsyStr c.fill then some ("black") else c.fill }
  else c

/-- The placement formula exactly as the specification words it (claim C6):
angleDeg = (xOffsets[i] − width/2)·360/(2π·r), cy = ±r by direction,
x = r·sin(angleRad), y = cy − cy·cos(angleRad), rotation = ±angleRad. -/
def specPlaceGlyph (r d width : ℝ) (xOff : ℝ) (g : Char) : PlacedGlyph :=
  { x := r * Real.sin ((xOff - width / 2) * 360 / (2 * Real.pi * r) * Real.pi / 180)
    y := (if d > 0 then r else -r) -
      (if d > 0 then r else -r) *
        Real.cos ((xOff - width / 2) * 360 / (2 * Real.pi * r) * Real.pi / 180)
    rotation :=
      if d > 0 then (xOff - width / 2) * 360 / (2 * Real.pi * r) * Real.pi / 180
      else -((xOff - width / 2) * 360 / (2 * Real.pi * r) * Real.pi / 180)
    glyph := g }

/-- The position delta rotated by the standard 2D rotation transform, as
the specification words it (claim C3): (dx·cosθ − dy·sinθ, dx·sinθ + dy·cosθ). -/
def specRotatedDelta (dx dy θ : ℝ) : ℝ × ℝ :=
  (dx * Real.cos θ - dy * Real.sin θ, dx * Real.sin θ + dy * Real.cos θ)

/-- A deterministic measurer assigning every string ten pixels per
character (so no kerning), used for concrete evaluations. -/
def mTen : List Char → ℝ := fun s => 10 * (s.length : ℝ)

/-- The same measurer, ignoring the font descriptor. -/
def mTenF : FontDesc → List Char → ℝ := fun _ s => 10 * (s.length : ℝ)

/-- A freshly constructed shape state with the default (empty) text. -/
def sEmpty : ShapeState :=
  { x := 0, y := 0, width := 0, height := 0, rotation := 0, scaleX := 1
    scaleY := 1, text := [], fontFamily := "Arial", fontStyle := "normal"
    fontVariant := "normal", fontSize := 12, curveRadius := none
    curveDirection := 1, computedText := none }

/-- A prior bounds snapshot rotated by 90 degrees. -/
def oldC3 : Bounds :=
  { x := 0, y := 0, width := 100, height := 50, rotation := 90
    scaleX := 1, scaleY := 1 }

/-- A single placed glyph at the origin. -/
def ptsC3 : List PlacedGlyph := [{ x := 0, y := 0, rotation := 0, glyph := 'A' }]

/-- An unrotated prior bounds snapshot. -/
def oldC4 : Bounds :=
  { x := 0, y := 0, width := 0, height := 0, rotation := 0
    scaleX := 1, scaleY := 1 }

/-- A single placed glyph at (10, 0). -/
def ptsC4 : List PlacedGlyph := [{ x := 10, y := 0, rotation := 0, glyph := 'A' }]

/- ------------------------------------------------------------------ -/
/- Helper lemmas                                                      -/
/- ------------------------------------------------------------------ -/

lemma effectiveRadius_ne_zero (cr : Option ℝ) : effectiveRadius cr ≠ 0 := by
  cases cr with
  | none => norm_num [effectiveRadius]
  | some r =>
    by_cases h : r = 0 <;> simp [effectiveRadius, h]

lemma zipWith_ext {α β γ : Type} {f g : α → β → γ} (h : ∀ a b, f a b = g a b) :
    ∀ (as : List α) (bs : List β), List.zipWith f as bs = List.zipWith g as bs := by
  have hfg : f = g := funext fun a => funext fun b => h a b
  intro as bs
  rw [hfg]

lemma map_zipWith_eq {α β γ δ : Type} (f : γ → δ) (g : α → β → γ) :
    ∀ (as : List α) (bs : List β),
      (List.zipWith g as bs).map f = List.zipWith (fun a b => f (g a b)) as bs := by
  intro as
  induction as with
  | nil => intro bs; rfl
  | cons a as ih =>
    intro bs
    cases bs with
    | nil => rfl
    | cons b bs => simp [List.zipWith, ih]

lemma offsetsFrom_length (m : List Char → ℝ) (rest : List Char) :
    ∀ (prev : ℝ) (p : Char), (offsetsFrom m prev p rest).length = rest.length := by
  induction rest with
  | nil => intro prev p; rfl
  | cons c rest ih => intro prev p; simp [offsetsFrom, ih]

lemma offsetsFrom_step (m : List Char → ℝ) (rest : List Char) :
    ∀ (p : Char) (prev : ℝ) (i : ℕ) (a b : Char) (x : ℝ),
      (p :: rest)[i]? = some a → rest[i]? = some b →
      (prev :: offsetsFrom m prev p rest)[i]? = some x →
      (offsetsFrom m prev p rest)[i]? =
        some (x + m [a, b] - m [a] / 2 - m [b] / 2) := by
  induction rest with
  | nil =>
    intro p prev i a b x _ hb _
    simp at hb
  | cons c rest ih =>
    intro p prev i a b x ha hb hx
    cases i with
    | zero =>
      simp only [List.getElem?_cons_zero, Option.some.injEq] at ha hb hx
      subst ha; subst hb; subst hx
      simp [offsetsFrom]
    | succ i =>
      simp only [List.getElem?_cons_succ] at ha hb hx
      simp only [offsetsFrom] at hx ⊢
      rw [List.getElem?_cons_succ]
      exact ih c (prev + m [p, c] - m [p] / 2 - m [c] / 2) i a b x ha hb hx

lemma updateBounds_isSome (f d : ℝ) (old : Bounds) (pts : List PlacedGlyph)
    (h : pts ≠ []) : ∃ b, updateBounds f d old pts = some b := by
  cases pts with
  | nil => exact absurd rfl h
  | cons t0 ts => exact ⟨_, rfl⟩

lemma curveText_ne_nil (M : FontDesc → List Char → ℝ) (s : ShapeState)
    (h : s.text ≠ []) : (computedLayoutOf M s).curveText ≠ [] := by
  rcases ht : s.text with _ | ⟨c, rest⟩
  · exact absurd ht h
  · simp [computedLayoutOf, curveTextOf, getTextMetrics, ht]

lemma computeText_nil (M : FontDesc → List Char → ℝ) (s : ShapeState)
    (h : s.text = []) : computeText M s = none := by
  unfold computeText
  have hct : (computedLayoutOf M s).curveText = [] := by
    simp [computedLayoutOf, curveTextOf, getTextMetrics, h]
  rw [hct]
  rfl

lemma placeGlyph_eq_spec (r d w xo : ℝ) (g : Char) (h : r ≠ 0) :
    placeGlyph r d w xo g = specPlaceGlyph r d w xo g := by
  have h2 : Real.pi * (r * 2) = 2 * Real.pi * r := by ring
  have h3 : -w / 2 + xo = xo - w / 2 := by ring
  simp only [placeGlyph, specPlaceGlyph, h2, h3, if_neg h]

/- ------------------------------------------------------------------ -/
/- Claim theorems                                                     -/
/- ------------------------------------------------------------------ -/

/-- Claim C7 (confirmed): for every value of the curveRadius attribute
(0, absent, or any other number) the effective radius used by the layout
is nonzero, and the circumference `Math.PI * (curveRadius * 2)` by which
glyph offsets are divided is nonzero as well. -/
theorem effectiveRadius_circumference_nonzero (cr : Option ℝ) :
    effectiveRadius cr ≠ 0 ∧ Real.pi * (effectiveRadius cr * 2) ≠ 0 :=
  ⟨effectiveRadius_ne_zero cr,
    mul_ne_zero Real.pi_ne_zero
      (mul_ne_zero (effectiveRadius_ne_zero cr) two_ne_zero)⟩

/-- Claim C6 (confirmed): every placed glyph is positioned exactly as the
specification words it — pairing glyph i with xOffsets[i], with
angleDeg = (xOffsets[i] − width/2)·360/(2π·r), cy = r for direction > 0
and −r otherwise, x = r·sin(angleRad), y = cy − cy·cos(angleRad), and
rotation = ±angleRad (the radius-zero rotation guard in the source is
unreachable because the effective radius is never zero). -/
theorem curveText_arc_placement_spec (m : List Char → ℝ) (text : List Char)
    (cr : Option ℝ) (d : ℝ) :
    curveTextOf m text cr d =
      List.zipWith
        (specPlaceGlyph (effectiveRadius cr) d (getTextMetrics m text).width)
        (getTextMetrics m text).xOffsets (getTextMetrics m text).text := by
  unfold curveTextOf
  exact zipWith_ext
    (fun xo c => placeGlyph_eq_spec (effectiveRadius cr) d
      (getTextMetrics m text).width xo c (effectiveRadius_ne_zero cr)) _ _

/-- Claim C9 (confirmed): with the same text, measurer and radius, the
layouts for curveDirection = +1 and curveDirection = −1 place every glyph
at the same x-coordinate and at mirror-image y-coordinates. -/
theorem curveText_direction_mirror (m : List Char → ℝ) (text : List Char)
    (cr : Option ℝ) :
    (curveTextOf m text cr 1).map (fun p => (p.x, p.y))
      = (curveTextOf m text cr (-1)).map (fun p => (p.x, -p.y)) := by
  unfold curveTextOf
  rw [map_zipWith_eq, map_zipWith_eq]
  apply zipWith_ext
  intro xo c
  simp only [placeGlyph]
  norm_num
  ring

/-- Claim C5 (confirmed): for nonempty text the measurer returns one
offset per glyph, seeded with half the first glyph's width, satisfying
the kerning-aware recurrence
`xOffsets[i+1] = xOffsets[i] + width(g[i] ++ g[i+1]) − width(g[i])/2 − width(g[i+1])/2`,
and reports the directly measured width of the whole text. -/
theorem getTextMetrics_kerning_recurrence (m : List Char → ℝ)
    (text : List Char) (h : text ≠ []) :
    (getTextMetrics m text).xOffsets.length = text.length ∧
    (∀ c, text[0]? = some c →
      (getTextMetrics m text).xOffsets[0]? = some (m [c] / 2)) ∧
    (∀ (i : ℕ) (a b : Char) (x : ℝ), text[i]? = some a → text[i + 1]? = some b →
      (getTextMetrics m text).xOffsets[i]? = some x →
      (getTextMetrics m text).xOffsets[i + 1]? =
        some (x + m [a, b] - m [a] / 2 - m [b] / 2)) ∧
    (getTextMetrics m text).width = m text := by
  rcases text with _ | ⟨c, rest⟩
  · exact absurd rfl h
  · refine ⟨?_, ?_, ?_, rfl⟩
    · simp [getTextMetrics, offsetsFrom_length]
    · intro c' hc'
      simp only [List.getElem?_cons_zero, Option.some.injEq] at hc'
      subst hc'
      simp [getTextMetrics]
    · intro i a b x ha hb hx
      simp only [getTextMetrics, List.getElem?_cons_succ] at hb hx ⊢
      exact offsetsFrom_step m rest c (m [c] / 2) i a b x ha hb hx

/-- Witness for claim C5 at the ten-pixel measurer and the text "AB". -/
theorem getTextMetrics_kerning_recurrence_witness :
    (['A', 'B'] : List Char) ≠ [] ∧
    (getTextMetrics mTen ['A', 'B']).xOffsets[1]? =
      some (5 + mTen ['A', 'B'] - mTen ['A'] / 2 - mTen ['B'] / 2) := by
  refine ⟨by simp, ?_⟩
  exact (getTextMetrics_kerning_recurrence mTen ['A', 'B'] (by simp)).2.2.1
    0 'A' 'B' 5 (by simp) (by simp)
    (by simp [getTextMetrics, mTen]; norm_num)

/-- Claim C8 (confirmed): the cached `_computedText` layout is a pure
function of the attributes and the measurer — running computeText a second
time (when it runs at all) produces a bit-identical ComputedLayout,
because updateBounds only rewrites geometry that the layout computation
never reads. -/
theorem computeText_idempotent_layout (M : FontDesc → List Char → ℝ)
    (s : ShapeState) :
    ((computeText M s).bind (computeText M)).map ShapeState.computedText
      = (computeText M s).map ShapeState.computedText := by
  by_cases h : s.text = []
  · rw [computeText_nil M s h]
    rfl
  · obtain ⟨b, hb⟩ := updateBounds_isSome s.fontSize s.curveDirection
      (boundsOf s) (computedLayoutOf M s).curveText (curveText_ne_nil M s h)
    have h1 : computeText M s = some (stepState M s b) := by
      unfold computeText
      rw [hb]
      rfl
    have h2 : (stepState M s b).text ≠ [] := h
    obtain ⟨b2, hb2⟩ := updateBounds_isSome (stepState M s b).fontSize
      (stepState M s b).curveDirection (boundsOf (stepState M s b))
      (computedLayoutOf M (stepState M s b)).curveText
      (curveText_ne_nil M (stepState M s b) h2)
    have h3 : computeText M (stepState M s b)
        = some (stepState M (stepState M s b) b2) := by
      unfold computeText
      rw [hb2]
      rfl
    rw [h1]
    show (computeText M (stepState M s b)).map ShapeState.computedText = _
    rw [h3]
    rfl

/-- Claim C2 (code bug): recomputing the layout of the default, empty
text does not succeed — updateBounds dereferences the first element of
the empty placed-glyph array and throws before writing any geometry or
layout (modelled as `none`), instead of producing zero glyphs and a
fontSize-by-fontSize box. -/
theorem computeText_empty_text_fails :
    sEmpty.text = [] ∧ computeText mTenF sEmpty = none :=
  ⟨rfl, computeText_nil mTenF sEmpty rfl⟩

/-- Claim C1 (code bug): with the curveRadius attribute set to the flatten
sentinel 0, the placed glyphs do NOT all have rotation 0 — the fallback
`curveRadius || 1000000` replaces the sentinel before the rotation guard
`curveRadius === 0 ? 0 : …` is evaluated, so the guard is dead code and
the first glyph of "AB" (each glyph ten pixels wide) is tilted by
−1/200000 radians. -/
theorem flatten_sentinel_glyph_rotation_nonzero :
    ((curveTextOf mTen ['A', 'B'] (some 0) 1).map PlacedGlyph.rotation)[0]?
      = some (-(1 / 200000) : ℝ) ∧ (-(1 / 200000) : ℝ) ≠ 0 := by
  constructor
  · have hr : effectiveRadius (some 0) = 1000000 := by
      simp [effectiveRadius]
    simp only [curveTextOf, getTextMetrics, offsetsFrom, mTen, hr,
      List.zipWith_cons_cons, List.zipWith_nil_right, List.map_cons,
      List.getElem?_cons_zero, placeGlyph, Option.some.injEq]
    norm_num
    field_simp
    ring
  · norm_num

/-- Claim C4 (code bug): the recomputed height is not always the y-extent
of the glyph points plus one fontSize.  For a single glyph placed at
(10, 0) with fontSize 12, the code yields height 22 — because updateBounds
seeds `maxY` with the first glyph's x (10) — whereas the bounding box of
the points gives (0 − 0) + 12 = 12. -/
theorem updateBounds_height_uses_first_x :
    (updateBounds 12 1 oldC4 ptsC4).map Bounds.height = some 22 ∧
    ((22 : ℝ) ≠ (0 - 0) + 12) := by
  constructor
  · simp only [updateBounds, ptsC4, oldC4, textBoundsOf, List.foldl_cons,
      List.foldl_nil, Option.map_some]
    norm_num
  · norm_num

/-- Claim C3 counterexample: at prior rotation 90°, curveDirection −1,
fontSize 12, prior 100×50 unit-scale bounds and one glyph at the origin
(so the new extents are 12×12, dx = 44, dy = 38), the code moves x to
0 + 38, while the claimed standard rotation of (dx, dy) would move it to
0 − 38. -/
theorem updateBounds_position_not_standard_rotation :
    (updateBounds 12 (-1) oldC3 ptsC3).map Bounds.x = some 38 ∧
    oldC3.x + (specRotatedDelta ((oldC3.width * oldC3.scaleX - 12 * oldC3.scaleX) / 2)
      (oldC3.height * oldC3.scaleY - 12 * oldC3.scaleY)
      (oldC3.rotation * Real.pi / 180)).1 = -38 ∧
    (38 : ℝ) ≠ -38 := by
  have h90 : (90 : ℝ) * Real.pi / 180 = Real.pi / 2 := by ring
  refine ⟨?_, ?_, by norm_num⟩
  · simp only [updateBounds, ptsC3, oldC3, textBoundsOf, List.foldl_cons,
      List.foldl_nil, Option.map_some]
    norm_num [h90, Real.cos_pi_div_two, Real.sin_pi_div_two]
  · simp only [specRotatedDelta, oldC3]
    norm_num [h90, Real.cos_pi_div_two, Real.sin_pi_div_two]

/-- Claim C3 as amended: the position deltas are as claimed (horizontal
centering always, vertical re-anchoring only for negative curve
direction), but the transform applied to (dx, dy) is
(dx·cosθ + dy·sinθ, dx·sinθ + dy·cosθ) — the x-component adds dy·sinθ
instead of subtracting it, so it is not the standard 2D rotation. -/
theorem updateBounds_position_update (f d : ℝ) (old : Bounds)
    (pts : List PlacedGlyph) (h : pts ≠ []) :
    ∃ b, updateBounds f d old pts = some b ∧
      b.x = old.x + ((old.width * old.scaleX - b.width * old.scaleX) / 2
          * Real.cos (old.rotation * Real.pi / 180)
        + (if d < 0 then old.height * old.scaleY - b.height * old.scaleY else 0)
          * Real.sin (old.rotation * Real.pi / 180)) ∧
      b.y = old.y + ((old.width * old.scaleX - b.width * old.scaleX) / 2
          * Real.sin (old.rotation * Real.pi / 180)
        + (if d < 0 then old.height * old.scaleY - b.height * old.scaleY else 0)
          * Real.cos (old.rotation * Real.pi / 180)) := by
  cases pts with
  | nil => exact absurd rfl h
  | cons t0 ts => exact ⟨_, rfl, rfl, rfl⟩

/-- Witness for the amended claim C3 at a concrete bounds snapshot and a
single placed glyph. -/
theorem updateBounds_position_update_witness :
    ptsC3 ≠ [] ∧
    ∃ b, updateBounds 12 (-1) oldC3 ptsC3 = some b ∧
      b.x = oldC3.x + ((oldC3.width * oldC3.scaleX - b.width * oldC3.scaleX) / 2
          * Real.cos (oldC3.rotation * Real.pi / 180)
        + (if (-1 : ℝ) < 0 then oldC3.height * oldC3.scaleY - b.height * oldC3.scaleY else 0)
          * Real.sin (oldC3.rotation * Real.pi / 180)) ∧
      b.y = oldC3.y + ((oldC3.width * oldC3.scaleX - b.width * oldC3.scaleX) / 2
          * Real.sin (oldC3.rotation * Real.pi / 180)
        + (if (-1 : ℝ) < 0 then oldC3.height * oldC3.scaleY - b.height * oldC3.scaleY else 0)
          * Real.cos (oldC3.rotation * Real.pi / 180)) :=
  ⟨by simp [ptsC3], updateBounds_position_update 12 (-1) oldC3 ptsC3 (by simp [ptsC3])⟩

/-- Claim C10 counterexample: an explicitly provided but falsy fill — the
empty string — is NOT preserved: `config.fill || 'black'` replaces it
with 'black'. -/
theorem checkDefaultFill_empty_fill_not_preserved :
    (checkDefaultFill (some
      { fillLinearGradientColorStops := false
        fillRadialGradientColorStops := false
        fillPatternImage := false
        fill := some ("") })).fill = some ("black") ∧
    some ("black") ≠ some ("" : String) := by
  constructor
  · rfl
  · simp

/-- Claim C10 as amended: when no gradient/pattern property is truthy,
fill defaults to 'black' exactly when the provided fill is absent or
falsy (the empty string); a truthy fill is preserved, and when a
gradient/pattern property is present the fill is left untouched.  The
absent-config case also defaults to 'black'. -/
theorem checkDefaultFill_fill_policy (c : FillConfig) :
    (checkDefaultFill (some c)).fill =
      (if !c.fillLinearGradientColorStops && !c.fillRadialGradientColorStops
          && !c.fillPatternImage && jsFalsyStr c.fill
        then some ("black") else c.fill) ∧
    (checkDefaultFill none).fill = some ("black") := by
  constructor
  · rcases hA : c.fillLinearGradientColorStops <;>
      rcases hB : c.fillRadialGradientColorStops <;>
      rcases hP : c.fillPatternImage <;>
      rcases hF : jsFalsyStr c.fill <;>
      simp [checkDefaultFill, hA, hB, hP, hF]
  · rfl
end
